import Mathlib

/-!
# The advanced-settings window of the alarm application (`src/win-advanced.c`)

A shallow embedding of the settings screen: the five module-level settings
values, the marquee state (`s_scroll_index`, `s_scroll_row_index`,
`s_scroll_timer`), the persistent key-value store, the pending application
timers and the ordered log of calls made to collaborators.

C `int` is 32 bits wide and `int16_t` 16 bits wide on the target; values are
kept as `Int` and every assignment that can leave the range is wrapped
explicitly (`wrap32`, `wrap16`).
-/

namespace WinAdvanced

/-! ## Machine integers -/

/-- Two's-complement reduction of an integer to a signed 16-bit value (`int16_t`). -/
def wrap16 (x : Int) : Int := (x + 32768) % 65536 - 32768

/-- Two's-complement reduction of an integer to a signed 32-bit value (`int`). -/
def wrap32 (x : Int) : Int := (x + 2147483648) % 4294967296 - 2147483648

/-! ## Collaborators -/

/-- The five storage keys of `storage.h` used by this window. Their numeric values
are not part of `win-advanced.c`, so they are parameters of the model. -/
structure Keys where
  LONGPRESS_DISMISS_KEY : Nat
  VIBRATION_PATTERN_KEY : Nat
  FLIP_TO_SNOOZE_KEY : Nat
  VIBRATION_DURATION_KEY : Nat
  AUTO_SNOOZE_KEY : Nat
deriving DecidableEq, Repr

/-- The five keys are pairwise different ("five fixed keys, one per row"). -/
def Keys.distinct (k : Keys) : Prop :=
  [k.LONGPRESS_DISMISS_KEY, k.VIBRATION_PATTERN_KEY, k.FLIP_TO_SNOOZE_KEY,
    k.VIBRATION_DURATION_KEY, k.AUTO_SNOOZE_KEY].Nodup

instance (k : Keys) : Decidable k.distinct := by
  unfold Keys.distinct; infer_instance

/-- The persistent key-value store: a key is either absent or holds an integer
datum. A boolean is stored as `1` or `0` and read back as "non-zero". -/
abbrev Store := Nat → Option Int

/-- The store that holds nothing. -/
def Store.empty : Store := fun _ => none

/-- The store after a write of `v` under `key`. -/
def Store.write (st : Store) (key : Nat) (v : Int) : Store :=
  fun k => if k = key then some v else st k

/-- Modelled from the spec: `load_persistent_storage_bool` of `storage.c`, which is
not part of the sources at hand: `read_bool(key, default) -> bool`, the stored
value when one exists under the key and the given default otherwise. -/
def load_persistent_storage_bool (st : Store) (key : Nat) (default_val : Bool) : Bool :=
  match st key with
  | some v => decide (v ≠ 0)
  | none => default_val

/-- Modelled from the spec: `load_persistent_storage_int` of `storage.c`, which is
not part of the sources at hand: `read_int(key, default) -> int`, the stored
value when one exists under the key and the given default otherwise. -/
def load_persistent_storage_int (st : Store) (key : Nat) (default_val : Int) : Int :=
  match st key with
  | some v => v
  | none => default_val

/-- A call made to a collaborator, recorded in the order in which it is made. -/
inductive Effect where
  | window_create
  | refresh_timeout
  | layer_mark_dirty
  | persist_write_bool (key : Nat) (value : Bool)
  | persist_write_int (key : Nat) (value : Int)
  | app_timer_register (timeout_ms : Nat) (handle : Nat)
  | app_timer_reschedule (handle : Nat) (new_timeout_ms : Nat)
deriving DecidableEq, Repr

/-- The `MenuIndex` of the list widget: two `uint16_t` fields. -/
structure MenuIndex where
  section_index : Nat
  row : Nat
deriving DecidableEq, Repr

/-! ## Module state -/

/-- The module-level variables of `win-advanced.c` together with the state of the
collaborators they are observed through. -/
structure State where
  s_longpress_dismiss : Bool
  s_vibration_pattern : Int
  s_flip_to_snooze : Bool
  s_vibration_duration : Int
  s_auto_snooze : Bool
  s_scroll_index : Int
  s_scroll_row_index : Int
  s_scroll_timer : Nat
  store : Store
  timers : List (Nat × Nat)
  next_timer : Nat
  log : List Effect

/-- The state at program start: C statics are zero-initialised, no timer is
pending and nothing has been logged. -/
def boot (st : Store) : State :=
  { s_longpress_dismiss := false
    s_vibration_pattern := 0
    s_flip_to_snooze := false
    s_vibration_duration := 0
    s_auto_snooze := false
    s_scroll_index := 0
    s_scroll_row_index := 0
    s_scroll_timer := 0
    store := st
    timers := []
    next_timer := 1
    log := [] }

/-- The call `refresh_timeout()` of `timeout.h`: only the fact of the call is recorded. -/
def refresh_timeout (s : State) : State :=
  { s with log := s.log ++ [Effect.refresh_timeout] }

/-- The call `layer_mark_dirty(menu_layer_get_layer(..))`: a redraw request. -/
def layer_mark_dirty (s : State) : State :=
  { s with log := s.log ++ [Effect.layer_mark_dirty] }

/-- The call `persist_write_bool(key, value)`. -/
def persist_write_bool (key : Nat) (value : Bool) (s : State) : State :=
  { s with
    store := s.store.write key (if value then 1 else 0)
    log := s.log ++ [Effect.persist_write_bool key value] }

/-- The call `persist_write_int(key, value)`. -/
def persist_write_int (key : Nat) (value : Int) (s : State) : State :=
  { s with
    store := s.store.write key value
    log := s.log ++ [Effect.persist_write_int key value] }

/-- The call `app_timer_register(timeout_ms, scroll_timer_callback, NULL)`: a fresh
handle with one pending fire; the handle is returned with the new state. -/
def app_timer_register (timeout_ms : Nat) (s : State) : Nat × State :=
  (s.next_timer,
    { s with
      timers := s.timers ++ [(s.next_timer, timeout_ms)]
      next_timer := s.next_timer + 1
      log := s.log ++ [Effect.app_timer_register timeout_ms s.next_timer] })

/-- The call `app_timer_reschedule(handle, new_timeout_ms)`: the pending fire of
that handle, if there is one, gets the new delay; nothing else changes. -/
def app_timer_reschedule (handle : Nat) (new_timeout_ms : Nat) (s : State) : State :=
  { s with
    timers := s.timers.map (fun t => if t.1 = handle then (t.1, new_timeout_ms) else t)
    log := s.log ++ [Effect.app_timer_reschedule handle new_timeout_ms] }

/-! ## The window's functions -/

/-- The function `win_advanced_init`. -/
def win_advanced_init (k : Keys) (s : State) : State :=
  let s := { s with log := s.log ++ [Effect.window_create] }
  let s := { s with s_longpress_dismiss :=
    load_persistent_storage_bool s.store k.LONGPRESS_DISMISS_KEY false }
  let s := { s with s_vibration_pattern :=
    load_persistent_storage_int s.store k.VIBRATION_PATTERN_KEY 0 }
  let s := { s with s_flip_to_snooze :=
    load_persistent_storage_bool s.store k.FLIP_TO_SNOOZE_KEY false }
  let s := { s with s_vibration_duration :=
    load_persistent_storage_int s.store k.VIBRATION_DURATION_KEY 2 }
  let s := { s with s_auto_snooze :=
    load_persistent_storage_bool s.store k.AUTO_SNOOZE_KEY true }
  let s := refresh_timeout s
  let r := app_timer_register 500 s
  { r.2 with s_scroll_timer := r.1 }

/-- The constant `MENU_ROW_COUNT`. -/
def MENU_ROW_COUNT : Nat := 5

/-- The function `menu_num_sections`. -/
def menu_num_sections : Nat := 1

/-- The function `menu_num_rows`. -/
def menu_num_rows (_section_index : Nat) : Nat := MENU_ROW_COUNT

/-- The function `menu_cell_height`. -/
def menu_cell_height (_cell_index : MenuIndex) : Int := 38

/-- The function `menu_header_height`. -/
def menu_header_height (_section_index : Nat) : Int := 0

/-- The C `strlen` of a label: its number of bytes. -/
def strlen (text : String) : Nat := text.utf8ByteSize

/-- One call of `menu_cell_basic_draw`: the label, the offset added to the label
pointer before the call, and the value text. -/
structure DrawCall where
  text : String
  start : Int
  subtext : String
deriving DecidableEq, Repr

/-- The function `menu_cell_animated_draw`. -/
def menu_cell_animated_draw (s : State) (text subtext : String) (animate : Bool) : DrawCall :=
  if animate && decide (s.s_scroll_index > 0) then
    if wrap16 (strlen text) - 15 - s.s_scroll_index > 0 then
      { text := text, start := s.s_scroll_index, subtext := subtext }
    else
      { text := text, start := 0, subtext := subtext }
  else
    { text := text, start := 0, subtext := subtext }

/-- The function `menu_draw_row`; `tr` is the localisation lookup behind the `_()`
macro of `localize.h`. The result lists the draw calls issued. -/
def menu_draw_row (tr : String → String) (cell_index : MenuIndex) (s : State) : List DrawCall :=
  let animate : Bool := decide ((cell_index.row : Int) = s.s_scroll_row_index)
  if cell_index.row = 0 then
    [menu_cell_animated_draw s (tr "Dismiss Alarm")
      (if s.s_longpress_dismiss then tr "Long press" else tr "Short press") animate]
  else if cell_index.row = 1 then
    [menu_cell_animated_draw s (tr "Shake to Snooze")
      (if s.s_flip_to_snooze then tr "Enabled" else tr "Disabled") animate]
  else if cell_index.row = 2 then
    if s.s_vibration_pattern = 0 then
      [menu_cell_animated_draw s (tr "Vibration Strength") (tr "Constant") animate]
    else if s.s_vibration_pattern = 1 then
      [menu_cell_animated_draw s (tr "Vibration Strength") (tr "Increasing 10s") animate]
    else if s.s_vibration_pattern = 2 then
      [menu_cell_animated_draw s (tr "Vibration Strength") (tr "Increasing 20s") animate]
    else if s.s_vibration_pattern = 3 then
      [menu_cell_animated_draw s (tr "Vibration Strength") (tr "Increasing 30s") animate]
    else []
  else if cell_index.row = 4 then
    [menu_cell_animated_draw s (tr "Snooze after Vibration End")
      (if s.s_auto_snooze then tr "ON" else tr "OFF") animate]
  else if cell_index.row = 3 then
    if s.s_vibration_duration = 0 then
      [menu_cell_animated_draw s (tr "Vibration Duration") (tr "30 seconds") animate]
    else if s.s_vibration_duration = 1 then
      [menu_cell_animated_draw s (tr "Vibration Duration") (tr "1 minute") animate]
    else if s.s_vibration_duration = 2 then
      [menu_cell_animated_draw s (tr "Vibration Duration") (tr "2 minutes") animate]
    else if s.s_vibration_duration = 3 then
      [menu_cell_animated_draw s (tr "Vibration Duration") (tr "5 minutes") animate]
    else []
  else []

/-- The function `scroll_timer_callback`. -/
def scroll_timer_callback (s : State) : State :=
  let s := { s with s_scroll_index := wrap16 (s.s_scroll_index + 3) }
  let s := if s.s_scroll_row_index > 0 then layer_mark_dirty s else s
  let r := app_timer_register 1000 s
  { r.2 with s_scroll_timer := r.1 }

/-- The function `menu_selection_changed`. -/
def menu_selection_changed (new_index _old_index : MenuIndex) (s : State) : State :=
  let s := { s with s_scroll_index := 0 }
  let s := { s with s_scroll_row_index := wrap16 new_index.row }
  let s := app_timer_reschedule s.s_scroll_timer 1000 s
  refresh_timeout s

/-- The `switch` of `menu_select`: the selected row's value is stepped and written
through to the store; any other row index falls through. -/
def menu_select_switch (k : Keys) (row : Nat) (s : State) : State :=
  if row = 0 then
    let s := { s with s_longpress_dismiss := !s.s_longpress_dismiss }
    persist_write_bool k.LONGPRESS_DISMISS_KEY s.s_longpress_dismiss s
  else if row = 1 then
    let s := { s with s_flip_to_snooze := !s.s_flip_to_snooze }
    persist_write_bool k.FLIP_TO_SNOOZE_KEY s.s_flip_to_snooze s
  else if row = 4 then
    let s := { s with s_auto_snooze := !s.s_auto_snooze }
    persist_write_bool k.AUTO_SNOOZE_KEY s.s_auto_snooze s
  else if row = 2 then
    let s := { s with s_vibration_pattern := wrap32 (s.s_vibration_pattern + 1) }
    let s := if s.s_vibration_pattern > 3 then { s with s_vibration_pattern := 0 } else s
    persist_write_int k.VIBRATION_PATTERN_KEY s.s_vibration_pattern s
  else if row = 3 then
    let s := { s with s_vibration_duration := wrap32 (s.s_vibration_duration + 1) }
    let s := if s.s_vibration_duration > 3 then { s with s_vibration_duration := 0 } else s
    persist_write_int k.VIBRATION_DURATION_KEY s.s_vibration_duration s
  else s

/-- The function `menu_select`. -/
def menu_select (k : Keys) (cell_index : MenuIndex) (s : State) : State :=
  let s := menu_select_switch k cell_index.row s
  let s := refresh_timeout s
  layer_mark_dirty s

/-! ## Sequences of calls -/

/-- A call the list widget or the timer service makes into the window. -/
inductive Event where
  | select (cell_index : MenuIndex)
  | selection_changed (new_index old_index : MenuIndex)
  | timer
deriving DecidableEq, Repr

/-- The effect of one call on the state. -/
def step (k : Keys) (s : State) : Event → State
  | Event.select cell_index => menu_select k cell_index s
  | Event.selection_changed new_index old_index =>
      menu_selection_changed new_index old_index s
  | Event.timer => scroll_timer_callback s

/-- The state after a finite sequence of calls, first call first. -/
def run (k : Keys) (events : List Event) (s : State) : State :=
  events.foldl (step k) s

/-- The state reached from program start with the given store contents by
`win_advanced_init` followed by the given calls. -/
def reached (k : Keys) (st : Store) (events : List Event) : State :=
  run k events (win_advanced_init k (boot st))

/-- The timer service fires the pending timer with the given handle: the pending
fire is consumed and `scroll_timer_callback` runs. Nothing happens when no fire
is pending for that handle. -/
def timer_fire (handle : Nat) (s : State) : State :=
  if handle ∈ s.timers.map Prod.fst then
    scroll_timer_callback { s with timers := s.timers.filter (fun t => t.1 ≠ handle) }
  else s

/-- A call into the window, a timer fire being the fire of a pending timer. -/
inductive TimedEvent where
  | select (cell_index : MenuIndex)
  | selection_changed (new_index old_index : MenuIndex)
  | fire (handle : Nat)
deriving DecidableEq, Repr

/-- The effect of one call on the state, pending timers included. -/
def step_timed (k : Keys) (s : State) : TimedEvent → State
  | TimedEvent.select cell_index => menu_select k cell_index s
  | TimedEvent.selection_changed new_index old_index =>
      menu_selection_changed new_index old_index s
  | TimedEvent.fire handle => timer_fire handle s

/-- The state after a finite sequence of such calls, first call first. -/
def run_timed (k : Keys) (events : List TimedEvent) (s : State) : State :=
  events.foldl (step_timed k) s

/-! ## Observers used to state the properties -/

/-- Five key values used to evaluate the functions on concrete inputs. -/
def sample_keys : Keys :=
  { LONGPRESS_DISMISS_KEY := 2
    VIBRATION_PATTERN_KEY := 4
    FLIP_TO_SNOOZE_KEY := 5
    VIBRATION_DURATION_KEY := 6
    AUTO_SNOOZE_KEY := 7 }

/-- The current in-memory value of a row, a boolean being reported as `1` or `0`
(row order: 0 long-press dismiss, 1 flip to snooze, 2 vibration pattern,
3 vibration duration, 4 auto snooze). -/
def row_value (s : State) (row : Nat) : Int :=
  if row = 0 then (if s.s_longpress_dismiss then 1 else 0)
  else if row = 1 then (if s.s_flip_to_snooze then 1 else 0)
  else if row = 2 then s.s_vibration_pattern
  else if row = 3 then s.s_vibration_duration
  else if row = 4 then (if s.s_auto_snooze then 1 else 0)
  else 0

/-- The number of values in a row's declared domain: 4 for the two enumerated
rows, 2 for the boolean rows. -/
def domain_size (row : Nat) : Nat :=
  if row = 2 ∨ row = 3 then 4 else 2

/-- The row's current value is one of its declared domain values. -/
def in_domain (s : State) (row : Nat) : Prop :=
  0 ≤ row_value s row ∧ row_value s row < domain_size row

instance (s : State) (row : Nat) : Decidable (in_domain s row) := by
  unfold in_domain; infer_instance

/-- The statements `v++; if (v > 3) v = 0;` of `menu_select` on a C `int`. -/
def step_enum (v : Int) : Int :=
  if wrap32 (v + 1) > 3 then 0 else wrap32 (v + 1)

/-- Both enumerated settings hold one of `0, 1, 2, 3`. -/
def enums_in_domain (s : State) : Prop :=
  (0 ≤ s.s_vibration_pattern ∧ s.s_vibration_pattern ≤ 3) ∧
    (0 ≤ s.s_vibration_duration ∧ s.s_vibration_duration ≤ 3)

/-- Re-reading each of the five keys with its documented default gives the
in-memory value of its row. -/
def store_mirrors (k : Keys) (s : State) : Prop :=
  load_persistent_storage_bool s.store k.LONGPRESS_DISMISS_KEY false = s.s_longpress_dismiss ∧
  load_persistent_storage_int s.store k.VIBRATION_PATTERN_KEY 0 = s.s_vibration_pattern ∧
  load_persistent_storage_bool s.store k.FLIP_TO_SNOOZE_KEY false = s.s_flip_to_snooze ∧
  load_persistent_storage_int s.store k.VIBRATION_DURATION_KEY 2 = s.s_vibration_duration ∧
  load_persistent_storage_bool s.store k.AUTO_SNOOZE_KEY true = s.s_auto_snooze

instance (k : Keys) (s : State) : Decidable (store_mirrors k s) := by
  unfold store_mirrors; infer_instance

/-- The fixed label of each row, as the specification lists them (rows 0 to 4). -/
def spec_row_label (row : Nat) : String :=
  if row = 0 then "Dismiss Alarm"
  else if row = 1 then "Shake to Snooze"
  else if row = 2 then "Vibration Strength"
  else if row = 3 then "Vibration Duration"
  else "Snooze after Vibration End"

/-- The display-string table of each row, as the specification lists it: the text
shown for the row's value (a boolean being `1` or `0`). -/
def spec_value_text (row : Nat) (value : Int) : String :=
  if row = 0 then (if value = 0 then "Short press" else "Long press")
  else if row = 1 then (if value = 0 then "Disabled" else "Enabled")
  else if row = 2 then
    (if value = 0 then "Constant" else if value = 1 then "Increasing 10s"
      else if value = 2 then "Increasing 20s" else "Increasing 30s")
  else if row = 3 then
    (if value = 0 then "30 seconds" else if value = 1 then "1 minute"
      else if value = 2 then "2 minutes" else "5 minutes")
  else (if value = 0 then "OFF" else "ON")

/-- The count of timer fires since the latest selection change, updated by one call. -/
def count_tick (c : Nat) : Event → Nat
  | Event.select _ => c
  | Event.selection_changed _ _ => 0
  | Event.timer => c + 1

/-- The number of timer fires in a sequence of calls after its last selection
change (after its start when it has none). -/
def ticks_since_reset (events : List Event) : Nat :=
  events.foldl count_tick 0

/-- Exactly one timer fire is pending and `s_scroll_timer` is its handle. -/
def one_pending (s : State) : Prop :=
  ∃ d, s.timers = [(s.s_scroll_timer, d)]

/-- The storage key that `menu_select` writes for a row in `0..4`. -/
def row_key (k : Keys) (row : Nat) : Nat :=
  if row = 0 then k.LONGPRESS_DISMISS_KEY
  else if row = 1 then k.FLIP_TO_SNOOZE_KEY
  else if row = 2 then k.VIBRATION_PATTERN_KEY
  else if row = 3 then k.VIBRATION_DURATION_KEY
  else k.AUTO_SNOOZE_KEY

/-- The storage write of a row's in-memory value in state `t` under the row's key,
for a row in `0..4`. -/
def row_write (k : Keys) (row : Nat) (t : State) : Effect :=
  if row = 0 then Effect.persist_write_bool (row_key k row) t.s_longpress_dismiss
  else if row = 1 then Effect.persist_write_bool (row_key k row) t.s_flip_to_snooze
  else if row = 2 then Effect.persist_write_int (row_key k row) t.s_vibration_pattern
  else if row = 3 then Effect.persist_write_int (row_key k row) t.s_vibration_duration
  else Effect.persist_write_bool (row_key k row) t.s_auto_snooze

/-! ## What each function does to the state -/

theorem step_enum_of_mem {v : Int} (h0 : 0 ≤ v) (h3 : v ≤ 3) : step_enum v = (v + 1) % 4 := by
  unfold step_enum wrap32
  split <;> omega

theorem menu_select_row0 (k : Keys) (sec : Nat) (s : State) :
    menu_select k ⟨sec, 0⟩ s =
      { s with
        s_longpress_dismiss := !s.s_longpress_dismiss
        store := s.store.write k.LONGPRESS_DISMISS_KEY (if !s.s_longpress_dismiss then 1 else 0)
        log := s.log ++ [Effect.persist_write_bool k.LONGPRESS_DISMISS_KEY
          (!s.s_longpress_dismiss), Effect.refresh_timeout, Effect.layer_mark_dirty] } := by
  simp [menu_select, menu_select_switch, refresh_timeout, layer_mark_dirty, persist_write_bool]

theorem menu_select_row1 (k : Keys) (sec : Nat) (s : State) :
    menu_select k ⟨sec, 1⟩ s =
      { s with
        s_flip_to_snooze := !s.s_flip_to_snooze
        store := s.store.write k.FLIP_TO_SNOOZE_KEY (if !s.s_flip_to_snooze then 1 else 0)
        log := s.log ++ [Effect.persist_write_bool k.FLIP_TO_SNOOZE_KEY
          (!s.s_flip_to_snooze), Effect.refresh_timeout, Effect.layer_mark_dirty] } := by
  simp [menu_select, menu_select_switch, refresh_timeout, layer_mark_dirty, persist_write_bool]

theorem menu_select_row4 (k : Keys) (sec : Nat) (s : State) :
    menu_select k ⟨sec, 4⟩ s =
      { s with
        s_auto_snooze := !s.s_auto_snooze
        store := s.store.write k.AUTO_SNOOZE_KEY (if !s.s_auto_snooze then 1 else 0)
        log := s.log ++ [Effect.persist_write_bool k.AUTO_SNOOZE_KEY
          (!s.s_auto_snooze), Effect.refresh_timeout, Effect.layer_mark_dirty] } := by
  simp [menu_select, menu_select_switch, refresh_timeout, layer_mark_dirty, persist_write_bool]

theorem menu_select_row2 (k : Keys) (sec : Nat) (s : State) :
    menu_select k ⟨sec, 2⟩ s =
      { s with
        s_vibration_pattern := step_enum s.s_vibration_pattern
        store := s.store.write k.VIBRATION_PATTERN_KEY (step_enum s.s_vibration_pattern)
        log := s.log ++ [Effect.persist_write_int k.VIBRATION_PATTERN_KEY
          (step_enum s.s_vibration_pattern), Effect.refresh_timeout,
          Effect.layer_mark_dirty] } := by
  by_cases hc : wrap32 (s.s_vibration_pattern + 1) > 3 <;>
    simp [menu_select, menu_select_switch, refresh_timeout, layer_mark_dirty,
      persist_write_int, step_enum, hc]

theorem menu_select_row3 (k : Keys) (sec : Nat) (s : State) :
    menu_select k ⟨sec, 3⟩ s =
      { s with
        s_vibration_duration := step_enum s.s_vibration_duration
        store := s.store.write k.VIBRATION_DURATION_KEY (step_enum s.s_vibration_duration)
        log := s.log ++ [Effect.persist_write_int k.VIBRATION_DURATION_KEY
          (step_enum s.s_vibration_duration), Effect.refresh_timeout,
          Effect.layer_mark_dirty] } := by
  by_cases hc : wrap32 (s.s_vibration_duration + 1) > 3 <;>
    simp [menu_select, menu_select_switch, refresh_timeout, layer_mark_dirty,
      persist_write_int, step_enum, hc]

theorem menu_select_pattern (k : Keys) (cell_index : MenuIndex) (s : State) :
    (menu_select k cell_index s).s_vibration_pattern
      = if cell_index.row = 2 then step_enum s.s_vibration_pattern
        else s.s_vibration_pattern := by
  by_cases hc : wrap32 (s.s_vibration_pattern + 1) > 3 <;>
    simp only [menu_select, menu_select_switch, refresh_timeout, layer_mark_dirty,
      persist_write_int, persist_write_bool, step_enum] <;>
    split_ifs <;> simp_all

theorem menu_select_duration (k : Keys) (cell_index : MenuIndex) (s : State) :
    (menu_select k cell_index s).s_vibration_duration
      = if cell_index.row = 3 then step_enum s.s_vibration_duration
        else s.s_vibration_duration := by
  by_cases hc : wrap32 (s.s_vibration_duration + 1) > 3 <;>
    simp only [menu_select, menu_select_switch, refresh_timeout, layer_mark_dirty,
      persist_write_int, persist_write_bool, step_enum] <;>
    split_ifs <;> simp_all

theorem step_enum_mem (v : Int) (h : 0 ≤ v ∧ v ≤ 3) :
    0 ≤ step_enum v ∧ step_enum v ≤ 3 := by
  rw [step_enum_of_mem h.1 h.2]
  omega

theorem step_enums_in_domain (k : Keys) (e : Event) (s : State) (h : enums_in_domain s) :
    enums_in_domain (step k s e) := by
  cases e with
  | select cell_index =>
    simp only [step, enums_in_domain, menu_select_pattern, menu_select_duration]
    constructor
    · split
      · exact step_enum_mem _ h.1
      · exact h.1
    · split
      · exact step_enum_mem _ h.2
      · exact h.2
  | selection_changed new_index old_index => exact h
  | timer =>
    simp only [step, scroll_timer_callback, app_timer_register, layer_mark_dirty]
    split <;> exact h

theorem run_enums_in_domain (k : Keys) (events : List Event) (s : State)
    (h : enums_in_domain s) : enums_in_domain (run k events s) := by
  induction events generalizing s with
  | nil => exact h
  | cons e es ih => exact ih (step k s e) (step_enums_in_domain k e s h)

theorem in_domain_of_enums (s : State) (h : enums_in_domain s) (r : Nat) (hr : r ≤ 4) :
    in_domain s r := by
  obtain ⟨⟨h1, h2⟩, h3, h4⟩ := h
  interval_cases r <;> simp [in_domain, row_value, domain_size] <;> omega

theorem menu_select_other (k : Keys) (sec row : Nat) (s : State)
    (h0 : row ≠ 0) (h1 : row ≠ 1) (h2 : row ≠ 2) (h3 : row ≠ 3) (h4 : row ≠ 4) :
    menu_select k ⟨sec, row⟩ s =
      { s with log := s.log ++ [Effect.refresh_timeout, Effect.layer_mark_dirty] } := by
  simp [menu_select, menu_select_switch, refresh_timeout, layer_mark_dirty, h0, h1, h2, h3, h4]

theorem load_bool_write_same (st : Store) (key : Nat) (b d : Bool) :
    load_persistent_storage_bool (st.write key (if b then 1 else 0)) key d = b := by
  cases b <;> simp [load_persistent_storage_bool, Store.write]

theorem load_int_write_same (st : Store) (key : Nat) (v d : Int) :
    load_persistent_storage_int (st.write key v) key d = v := by
  simp [load_persistent_storage_int, Store.write]

theorem load_bool_write_other (st : Store) (key key2 : Nat) (v : Int) (d : Bool)
    (h : key2 ≠ key) :
    load_persistent_storage_bool (st.write key v) key2 d
      = load_persistent_storage_bool st key2 d := by
  simp [load_persistent_storage_bool, Store.write, h]

theorem load_int_write_other (st : Store) (key key2 : Nat) (v d : Int) (h : key2 ≠ key) :
    load_persistent_storage_int (st.write key v) key2 d
      = load_persistent_storage_int st key2 d := by
  simp [load_persistent_storage_int, Store.write, h]

theorem step_store_mirrors (k : Keys) (hk : k.distinct) (e : Event) (s : State)
    (h : store_mirrors k s) : store_mirrors k (step k s e) := by
  simp only [Keys.distinct, List.nodup_cons, List.mem_cons, List.mem_singleton, not_or,
    List.not_mem_nil, not_false_eq_true, List.nodup_nil, and_true] at hk
  obtain ⟨⟨a1, a2, a3, a4⟩, ⟨b1, b2, b3⟩, ⟨c1, c2⟩, d1⟩ := hk
  obtain ⟨m1, m2, m3, m4, m5⟩ := h
  cases e with
  | select cell_index =>
    obtain ⟨sec, row⟩ := cell_index
    simp only [step]
    by_cases h0 : row = 0
    · subst h0
      rw [menu_select_row0]
      refine ⟨load_bool_write_same _ _ _ _, ?_, ?_, ?_, ?_⟩
      · rw [← m2]; exact load_int_write_other _ _ _ _ _ (Ne.symm a1)
      · rw [← m3]; exact load_bool_write_other _ _ _ _ _ (Ne.symm a2)
      · rw [← m4]; exact load_int_write_other _ _ _ _ _ (Ne.symm a3)
      · rw [← m5]; exact load_bool_write_other _ _ _ _ _ (Ne.symm a4)
    by_cases h1 : row = 1
    · subst h1
      rw [menu_select_row1]
      refine ⟨?_, ?_, load_bool_write_same _ _ _ _, ?_, ?_⟩
      · rw [← m1]; exact load_bool_write_other _ _ _ _ _ a2
      · rw [← m2]; exact load_int_write_other _ _ _ _ _ b1
      · rw [← m4]; exact load_int_write_other _ _ _ _ _ (Ne.symm c1)
      · rw [← m5]; exact load_bool_write_other _ _ _ _ _ (Ne.symm c2)
    by_cases h2 : row = 2
    · subst h2
      rw [menu_select_row2]
      refine ⟨?_, load_int_write_same _ _ _ _, ?_, ?_, ?_⟩
      · rw [← m1]; exact load_bool_write_other _ _ _ _ _ a1
      · rw [← m3]; exact load_bool_write_other _ _ _ _ _ (Ne.symm b1)
      · rw [← m4]; exact load_int_write_other _ _ _ _ _ (Ne.symm b2)
      · rw [← m5]; exact load_bool_write_other _ _ _ _ _ (Ne.symm b3)
    by_cases h3 : row = 3
    · subst h3
      rw [menu_select_row3]
      refine ⟨?_, ?_, ?_, load_int_write_same _ _ _ _, ?_⟩
      · rw [← m1]; exact load_bool_write_other _ _ _ _ _ a3
      · rw [← m2]; exact load_int_write_other _ _ _ _ _ b2
      · rw [← m3]; exact load_bool_write_other _ _ _ _ _ c1
      · rw [← m5]; exact load_bool_write_other _ _ _ _ _ (Ne.symm d1)
    by_cases h4 : row = 4
    · subst h4
      rw [menu_select_row4]
      refine ⟨?_, ?_, ?_, ?_, load_bool_write_same _ _ _ _⟩
      · rw [← m1]; exact load_bool_write_other _ _ _ _ _ a4
      · rw [← m2]; exact load_int_write_other _ _ _ _ _ b3
      · rw [← m3]; exact load_bool_write_other _ _ _ _ _ c2
      · rw [← m4]; exact load_int_write_other _ _ _ _ _ d1
    · rw [menu_select_other k sec row s h0 h1 h2 h3 h4]
      exact ⟨m1, m2, m3, m4, m5⟩
  | selection_changed new_index old_index => exact ⟨m1, m2, m3, m4, m5⟩
  | timer =>
    simp only [step, scroll_timer_callback, app_timer_register, layer_mark_dirty]
    split <;> exact ⟨m1, m2, m3, m4, m5⟩

theorem run_store_mirrors (k : Keys) (hk : k.distinct) (events : List Event) (s : State)
    (h : store_mirrors k s) : store_mirrors k (run k events s) := by
  induction events generalizing s with
  | nil => exact h
  | cons e es ih => exact ih (step k s e) (step_store_mirrors k hk e s h)

theorem iterate_select_pattern (k : Keys) (sec n : Nat) :
    ((menu_select k ⟨sec, 2⟩)^[n] (reached k Store.empty [])).s_vibration_pattern
        = (n : Int) % 4 ∧
      load_persistent_storage_int
        ((menu_select k ⟨sec, 2⟩)^[n] (reached k Store.empty [])).store
        k.VIBRATION_PATTERN_KEY 0 = (n : Int) % 4 := by
  induction n with
  | zero =>
    simp [reached, run, win_advanced_init, boot, refresh_timeout, app_timer_register,
      load_persistent_storage_int, Store.empty]
  | succ n ih =>
    rw [Function.iterate_succ_apply', menu_select_row2]
    simp only [load_int_write_same, and_self]
    rw [ih.1, step_enum_of_mem (by omega) (by omega)]
    omega

theorem menu_cell_animated_draw_text (s : State) (text subtext : String) (animate : Bool) :
    (menu_cell_animated_draw s text subtext animate).text = text := by
  unfold menu_cell_animated_draw
  split_ifs <;> rfl

theorem menu_cell_animated_draw_subtext (s : State) (text subtext : String)
    (animate : Bool) :
    (menu_cell_animated_draw s text subtext animate).subtext = subtext := by
  unfold menu_cell_animated_draw
  split_ifs <;> rfl

theorem wrap16_of_mem {x : Int} (h0 : -32768 ≤ x) (h1 : x ≤ 32767) : wrap16 x = x := by
  unfold wrap16
  omega

theorem iterate_timer_settings (n : Nat) (s : State) :
    (scroll_timer_callback^[n] s).s_scroll_row_index = s.s_scroll_row_index := by
  induction n generalizing s with
  | zero => rfl
  | succ n ih =>
    rw [Function.iterate_succ_apply, ih]
    simp only [scroll_timer_callback, app_timer_register, layer_mark_dirty]
    split <;> rfl

theorem wrap16_add_three (x : Int) : wrap16 (wrap16 x + 3) = wrap16 (x + 3) := by
  unfold wrap16
  omega

theorem range_wrap16 (x : Int) : -32768 ≤ wrap16 x ∧ wrap16 x ≤ 32767 := by
  unfold wrap16
  omega

theorem step_scroll_index (k : Keys) (e : Event) (s : State) (c : Nat)
    (h : s.s_scroll_index = wrap16 (3 * c)) :
    (step k s e).s_scroll_index = wrap16 (3 * (count_tick c e : Nat)) := by
  cases e with
  | select cell_index =>
    obtain ⟨sec, row⟩ := cell_index
    simp only [step, count_tick]
    rw [← h]
    simp only [menu_select, menu_select_switch, refresh_timeout, layer_mark_dirty,
      persist_write_int, persist_write_bool]
    split_ifs <;> rfl
  | selection_changed new_index old_index =>
    simp [step, count_tick, menu_selection_changed, refresh_timeout, app_timer_reschedule,
      wrap16]
  | timer =>
    have h3 : (scroll_timer_callback s).s_scroll_index = wrap16 (s.s_scroll_index + 3) := by
      simp only [scroll_timer_callback, app_timer_register, layer_mark_dirty]
      split <;> rfl
    simp only [step, count_tick]
    rw [h3, h, wrap16_add_three]
    push_cast
    ring_nf

theorem run_scroll_index (k : Keys) (events : List Event) (s : State) (c : Nat)
    (h : s.s_scroll_index = wrap16 (3 * c)) :
    (run k events s).s_scroll_index = wrap16 (3 * (events.foldl count_tick c : Nat)) := by
  induction events generalizing s c with
  | nil => exact h
  | cons e es ih => exact ih (step k s e) (count_tick c e) (step_scroll_index k e s c h)

theorem reached_scroll_index (k : Keys) (st : Store) (events : List Event) :
    (reached k st events).s_scroll_index = wrap16 (3 * (ticks_since_reset events : Nat)) :=
  run_scroll_index k events _ 0 rfl

theorem foldl_count_tick_replicate (n c : Nat) :
    (List.replicate n Event.timer).foldl count_tick c = c + n := by
  induction n generalizing c with
  | zero => rfl
  | succ n ih =>
    rw [List.replicate_succ, List.foldl_cons, ih]
    simp only [count_tick]
    omega

theorem menu_select_timers (k : Keys) (cell_index : MenuIndex) (s : State) :
    (menu_select k cell_index s).timers = s.timers ∧
      (menu_select k cell_index s).s_scroll_timer = s.s_scroll_timer := by
  simp only [menu_select, menu_select_switch, refresh_timeout, layer_mark_dirty,
    persist_write_int, persist_write_bool]
  split_ifs <;> exact ⟨rfl, rfl⟩

theorem step_timed_one_pending (k : Keys) (e : TimedEvent) (s : State)
    (h : one_pending s) : one_pending (step_timed k s e) := by
  obtain ⟨d, hd⟩ := h
  cases e with
  | select cell_index =>
    refine ⟨d, ?_⟩
    simp only [step_timed]
    rw [(menu_select_timers k cell_index s).1, (menu_select_timers k cell_index s).2]
    exact hd
  | selection_changed new_index old_index =>
    refine ⟨1000, ?_⟩
    simp [step_timed, menu_selection_changed, refresh_timeout, app_timer_reschedule, hd]
  | fire handle =>
    simp only [step_timed, timer_fire]
    split
    · refine ⟨1000, ?_⟩
      rename_i hmem
      have hh : handle = s.s_scroll_timer := by
        simpa [hd] using hmem
      simp only [scroll_timer_callback, app_timer_register, layer_mark_dirty]
      split <;> simp [hd, hh]
    · exact ⟨d, hd⟩

theorem run_timed_one_pending (k : Keys) (events : List TimedEvent) (s : State)
    (h : one_pending s) : one_pending (run_timed k events s) := by
  induction events generalizing s with
  | nil => exact h
  | cons e es ih => exact ih (step_timed k s e) (step_timed_one_pending k e s h)

theorem menu_cell_animated_draw_start (s : State) (text subtext : String)
    (animate : Bool) :
    (menu_cell_animated_draw s text subtext animate).start
      = if animate = true ∧ s.s_scroll_index > 0 ∧
          wrap16 (strlen text) - 15 - s.s_scroll_index > 0
        then s.s_scroll_index else 0 := by
  unfold menu_cell_animated_draw
  cases animate <;> by_cases h1 : s.s_scroll_index > 0 <;>
    by_cases h2 : wrap16 (strlen text) - 15 - s.s_scroll_index > 0 <;> simp [h1, h2]

theorem wrap16_le_self (n : Nat) : wrap16 n ≤ n := by
  unfold wrap16
  omega

theorem mem_menu_draw_row (tr : String → String) (cell_index : MenuIndex) (s : State)
    (d : DrawCall) (hd : d ∈ menu_draw_row tr cell_index s) :
    cell_index.row ≤ 4 ∧
      d = menu_cell_animated_draw s (tr (spec_row_label cell_index.row)) d.subtext
        (decide ((cell_index.row : Int) = s.s_scroll_row_index)) := by
  unfold menu_draw_row at hd
  simp only [] at hd
  split_ifs at hd with h0 h1 h2 _ _ _ _ h4 h3 <;>
    simp only [List.mem_singleton, List.not_mem_nil] at hd <;>
    refine ⟨by omega, ?_⟩ <;>
    rw [hd, menu_cell_animated_draw_subtext] <;>
    simp [spec_row_label, *]

theorem menu_draw_row_congr (tr : String → String) (cell_index : MenuIndex) (s t : State)
    (h0 : cell_index.row = 0 → t.s_longpress_dismiss = s.s_longpress_dismiss)
    (h1 : cell_index.row = 1 → t.s_flip_to_snooze = s.s_flip_to_snooze)
    (h2 : cell_index.row = 2 → t.s_vibration_pattern = s.s_vibration_pattern)
    (h3 : cell_index.row = 3 → t.s_vibration_duration = s.s_vibration_duration)
    (h4 : cell_index.row = 4 → t.s_auto_snooze = s.s_auto_snooze)
    (hi : t.s_scroll_index = s.s_scroll_index)
    (hr : t.s_scroll_row_index = s.s_scroll_row_index) :
    menu_draw_row tr cell_index t = menu_draw_row tr cell_index s := by
  have hc : ∀ a b c, menu_cell_animated_draw t a b c = menu_cell_animated_draw s a b c := by
    intro a b c
    simp only [menu_cell_animated_draw, hi]
  by_cases r0 : cell_index.row = 0
  · simp [menu_draw_row, r0, hc, hr, h0 r0]
  by_cases r1 : cell_index.row = 1
  · simp [menu_draw_row, r1, hc, hr, h1 r1]
  by_cases r2 : cell_index.row = 2
  · simp [menu_draw_row, r2, hc, hr, h2 r2]
  by_cases r3 : cell_index.row = 3
  · simp [menu_draw_row, r3, hc, hr, h3 r3]
  by_cases r4 : cell_index.row = 4
  · simp [menu_draw_row, r4, hc, hr, h4 r4]
  · simp [menu_draw_row, r0, r1, r2, r3, r4]

theorem row_key_injective (k : Keys) (hk : k.distinct) (r r2 : Nat) (hr : r ≤ 4)
    (hr2 : r2 ≤ 4) (hne : r2 ≠ r) : row_key k r2 ≠ row_key k r := by
  simp only [Keys.distinct, List.nodup_cons, List.mem_cons, List.mem_singleton, not_or,
    List.not_mem_nil, not_false_eq_true, List.nodup_nil, and_true] at hk
  obtain ⟨⟨a1, a2, a3, a4⟩, ⟨b1, b2, b3⟩, ⟨c1, c2⟩, d1⟩ := hk
  interval_cases r <;> interval_cases r2 <;> simp [row_key] <;>
    first
    | exact absurd rfl hne
    | assumption
    | (intro h; exact absurd h.symm (by assumption))

theorem strlen_spec_row_label :
    strlen (spec_row_label 0) = 13 ∧ strlen (spec_row_label 1) = 15 ∧
      strlen (spec_row_label 2) = 18 ∧ strlen (spec_row_label 3) = 18 ∧
      strlen (spec_row_label 4) = 26 := by
  decide

/-! ## Properties -/

/-- C1: on a row whose value lies in its domain, `menu_select` performs one cycle
step: the boolean rows 0, 1 and 4 are negated, and the enumerated rows 2 and 3
go from `v` in `0..3` to `(v + 1) mod 4`. -/
theorem menu_select_cycle_step (k : Keys) (cell_index : MenuIndex) (s : State) :
    (cell_index.row = 0 →
      (menu_select k cell_index s).s_longpress_dismiss = !s.s_longpress_dismiss) ∧
    (cell_index.row = 1 →
      (menu_select k cell_index s).s_flip_to_snooze = !s.s_flip_to_snooze) ∧
    (cell_index.row = 4 →
      (menu_select k cell_index s).s_auto_snooze = !s.s_auto_snooze) ∧
    (cell_index.row = 2 → 0 ≤ s.s_vibration_pattern → s.s_vibration_pattern ≤ 3 →
      (menu_select k cell_index s).s_vibration_pattern = (s.s_vibration_pattern + 1) % 4) ∧
    (cell_index.row = 3 → 0 ≤ s.s_vibration_duration → s.s_vibration_duration ≤ 3 →
      (menu_select k cell_index s).s_vibration_duration
        = (s.s_vibration_duration + 1) % 4) := by
  refine ⟨?_, ?_, ?_, ?_, ?_⟩
  · intro h
    simp [menu_select, menu_select_switch, h, refresh_timeout, layer_mark_dirty,
      persist_write_bool]
  · intro h
    simp [menu_select, menu_select_switch, h, refresh_timeout, layer_mark_dirty,
      persist_write_bool]
  · intro h
    simp [menu_select, menu_select_switch, h, refresh_timeout, layer_mark_dirty,
      persist_write_bool]
  · intro h h0 h3
    by_cases hc : wrap32 (s.s_vibration_pattern + 1) > 3 <;>
      simp [menu_select, menu_select_switch, h, refresh_timeout, layer_mark_dirty,
        persist_write_int, hc] <;>
      simp only [wrap32] at * <;> omega
  · intro h h0 h3
    by_cases hc : wrap32 (s.s_vibration_duration + 1) > 3 <;>
      simp [menu_select, menu_select_switch, h, refresh_timeout, layer_mark_dirty,
        persist_write_int, hc] <;>
      simp only [wrap32] at * <;> omega

/-- C1 at a concrete input: selecting row 2 while the vibration pattern is 3
wraps it to 0. -/
theorem menu_select_cycle_step_witness :
    (menu_select sample_keys ⟨0, 2⟩
      { boot Store.empty with s_vibration_pattern := 3 }).s_vibration_pattern = 0 :=
  (menu_select_cycle_step sample_keys ⟨0, 2⟩
    { boot Store.empty with s_vibration_pattern := 3 }).2.2.2.1 rfl (by decide) (by decide)

/-- C2: for every row `r` in `0..4` whose value is in its domain, `domain_size r`
consecutive calls of `menu_select` on `r` (2 for rows 0, 1, 4; 4 for rows 2, 3)
bring the in-memory value of `r` back to where it started. -/
theorem menu_select_domain_size_times (k : Keys) (sec r : Nat) (s : State)
    (hr : r ≤ 4) (hd : in_domain s r) :
    row_value ((menu_select k ⟨sec, r⟩)^[domain_size r] s) r = row_value s r := by
  interval_cases r
  · simp [domain_size, row_value, menu_select_row0]
  · simp [domain_size, row_value, menu_select_row1]
  · simp only [in_domain, row_value, domain_size] at hd
    simp at hd
    have h4 : domain_size 2 = 4 := by decide
    rw [h4]
    simp only [row_value, Function.iterate_succ, Function.iterate_zero,
      Function.comp, menu_select_row2]
    simp [step_enum, wrap32]
    split_ifs <;> omega
  · simp only [in_domain, row_value, domain_size] at hd
    simp at hd
    have h4 : domain_size 3 = 4 := by decide
    rw [h4]
    simp only [row_value, Function.iterate_succ, Function.iterate_zero,
      Function.comp, menu_select_row3]
    simp [step_enum, wrap32]
    split_ifs <;> omega
  · simp [domain_size, row_value, menu_select_row4]

/-- C2 at a concrete input: four selections of row 3 from the duration 2. -/
theorem menu_select_domain_size_times_witness :
    row_value ((menu_select sample_keys ⟨0, 3⟩)^[4]
      (win_advanced_init sample_keys (boot Store.empty))) 3 = 2 :=
  menu_select_domain_size_times sample_keys 0 3
    (win_advanced_init sample_keys (boot Store.empty)) (by decide) (by decide)

/-- C3, as stated, fails: with 7 stored under the vibration-pattern key the state
right after `win_advanced_init` holds the vibration pattern 7, which is not one
of `0, 1, 2, 3`. -/
theorem reached_outside_domain :
    (reached sample_keys (Store.empty.write sample_keys.VIBRATION_PATTERN_KEY 7)
        []).s_vibration_pattern = 7 ∧
      ¬ in_domain
        (reached sample_keys (Store.empty.write sample_keys.VIBRATION_PATTERN_KEY 7) []) 2 := by
  decide

/-- C3, amended: when whatever the store holds under the vibration-pattern and
vibration-duration keys is one of `0, 1, 2, 3`, every state reached from
`win_advanced_init` through any finite sequence of `menu_select`,
`menu_selection_changed` and `scroll_timer_callback` calls has every row's value
in its declared domain; in particular both enumerated settings are in `0..3`. -/
theorem reached_in_domain (k : Keys) (st : Store) (events : List Event)
    (hp : ∀ v, st k.VIBRATION_PATTERN_KEY = some v → 0 ≤ v ∧ v ≤ 3)
    (hd : ∀ v, st k.VIBRATION_DURATION_KEY = some v → 0 ≤ v ∧ v ≤ 3) :
    (∀ r, r ≤ 4 → in_domain (reached k st events) r) ∧
      enums_in_domain (reached k st events) := by
  have h0 : enums_in_domain (win_advanced_init k (boot st)) := by
    simp only [enums_in_domain, win_advanced_init, boot, refresh_timeout, app_timer_register,
      load_persistent_storage_int]
    constructor
    · cases hv : st k.VIBRATION_PATTERN_KEY with
      | none => simp
      | some v => exact hp v hv
    · cases hv : st k.VIBRATION_DURATION_KEY with
      | none => simp
      | some v => exact hd v hv
  have h := run_enums_in_domain k events _ h0
  exact ⟨fun r hr => in_domain_of_enums _ h r hr, h⟩

/-- C3, amended, at a concrete input: a store holding the pattern 3, then three
selections of row 2 with a timer fire and a selection change in between. -/
theorem reached_in_domain_witness :
    enums_in_domain (reached sample_keys
      (Store.empty.write sample_keys.VIBRATION_PATTERN_KEY 3)
      [Event.select ⟨0, 2⟩, Event.timer, Event.select ⟨0, 2⟩,
        Event.selection_changed ⟨0, 3⟩ ⟨0, 2⟩, Event.select ⟨0, 3⟩]) :=
  (reached_in_domain sample_keys (Store.empty.write sample_keys.VIBRATION_PATTERN_KEY 3)
    [Event.select ⟨0, 2⟩, Event.timer, Event.select ⟨0, 2⟩,
      Event.selection_changed ⟨0, 3⟩ ⟨0, 2⟩, Event.select ⟨0, 3⟩]
    (by intro v hv; simp [Store.write, sample_keys] at hv; omega)
    (by intro v hv; simp [Store.write, Store.empty, sample_keys] at hv)).2

/-- C4: after `win_advanced_init`, each of the five in-memory values is the value
stored under its row's key (a stored boolean being the datum read as "non-zero"),
or, when nothing is stored under that key, its documented default: long-press
dismiss `false`, vibration pattern `0`, flip to snooze `false`, vibration
duration `2`, auto snooze `true`; in particular a value written last with
`persist_write_bool` or `persist_write_int` under a row's key is the value loaded. -/
theorem win_advanced_init_loads (k : Keys) (st : Store) :
    ((∀ v, st k.LONGPRESS_DISMISS_KEY = some v →
        (reached k st []).s_longpress_dismiss = decide (v ≠ 0)) ∧
      (st k.LONGPRESS_DISMISS_KEY = none → (reached k st []).s_longpress_dismiss = false)) ∧
    ((∀ v, st k.VIBRATION_PATTERN_KEY = some v → (reached k st []).s_vibration_pattern = v) ∧
      (st k.VIBRATION_PATTERN_KEY = none → (reached k st []).s_vibration_pattern = 0)) ∧
    ((∀ v, st k.FLIP_TO_SNOOZE_KEY = some v →
        (reached k st []).s_flip_to_snooze = decide (v ≠ 0)) ∧
      (st k.FLIP_TO_SNOOZE_KEY = none → (reached k st []).s_flip_to_snooze = false)) ∧
    ((∀ v, st k.VIBRATION_DURATION_KEY = some v →
        (reached k st []).s_vibration_duration = v) ∧
      (st k.VIBRATION_DURATION_KEY = none → (reached k st []).s_vibration_duration = 2)) ∧
    ((∀ v, st k.AUTO_SNOOZE_KEY = some v →
        (reached k st []).s_auto_snooze = decide (v ≠ 0)) ∧
      (st k.AUTO_SNOOZE_KEY = none → (reached k st []).s_auto_snooze = true)) ∧
    (∀ (t : State) (b : Bool) (v : Int),
      (reached k (persist_write_bool k.LONGPRESS_DISMISS_KEY b t).store
        []).s_longpress_dismiss = b ∧
      (reached k (persist_write_int k.VIBRATION_PATTERN_KEY v t).store
        []).s_vibration_pattern = v ∧
      (reached k (persist_write_bool k.FLIP_TO_SNOOZE_KEY b t).store []).s_flip_to_snooze = b ∧
      (reached k (persist_write_int k.VIBRATION_DURATION_KEY v t).store
        []).s_vibration_duration = v ∧
      (reached k (persist_write_bool k.AUTO_SNOOZE_KEY b t).store []).s_auto_snooze = b) := by
  refine ⟨⟨?_, ?_⟩, ⟨?_, ?_⟩, ⟨?_, ?_⟩, ⟨?_, ?_⟩, ⟨?_, ?_⟩, ?_⟩
  case refine_11 =>
    intro t b v
    exact ⟨load_bool_write_same _ _ _ _, load_int_write_same _ _ _ _,
      load_bool_write_same _ _ _ _, load_int_write_same _ _ _ _,
      load_bool_write_same _ _ _ _⟩
  all_goals
    simp only [reached, run, List.foldl_nil, win_advanced_init, boot, refresh_timeout,
      app_timer_register, load_persistent_storage_bool, load_persistent_storage_int]
    intros
    simp_all

/-- C4 at a concrete input: nothing is stored under the vibration-duration key, so
the duration is its default 2. -/
theorem win_advanced_init_loads_witness :
    (reached sample_keys (Store.empty.write sample_keys.VIBRATION_PATTERN_KEY 3)
      []).s_vibration_duration = 2 :=
  (win_advanced_init_loads sample_keys
    (Store.empty.write sample_keys.VIBRATION_PATTERN_KEY 3)).2.2.2.1.2 (by decide)

/-- C5: with five pairwise different keys, in every state reached from
`win_advanced_init` (any initial store contents) through any finite sequence of
`menu_select`, `menu_selection_changed` and `scroll_timer_callback` calls,
re-reading each of the five keys with its documented default gives that row's
current in-memory value, so that a fresh load reproduces the current settings. -/
theorem reached_store_mirrors (k : Keys) (st : Store) (events : List Event)
    (hk : k.distinct) :
    store_mirrors k (reached k st events) ∧
      (reached k (reached k st events).store []).s_longpress_dismiss
        = (reached k st events).s_longpress_dismiss ∧
      (reached k (reached k st events).store []).s_vibration_pattern
        = (reached k st events).s_vibration_pattern ∧
      (reached k (reached k st events).store []).s_flip_to_snooze
        = (reached k st events).s_flip_to_snooze ∧
      (reached k (reached k st events).store []).s_vibration_duration
        = (reached k st events).s_vibration_duration ∧
      (reached k (reached k st events).store []).s_auto_snooze
        = (reached k st events).s_auto_snooze := by
  have h : store_mirrors k (reached k st events) :=
    run_store_mirrors k hk events _ ⟨rfl, rfl, rfl, rfl, rfl⟩
  exact ⟨h, h⟩

/-- C5 at a concrete input: an empty store, then a mix of selections, a timer fire
and a selection change. -/
theorem reached_store_mirrors_witness :
    store_mirrors sample_keys (reached sample_keys Store.empty
      [Event.select ⟨0, 2⟩, Event.timer, Event.select ⟨0, 0⟩,
        Event.selection_changed ⟨0, 3⟩ ⟨0, 0⟩, Event.select ⟨0, 3⟩, Event.select ⟨0, 3⟩]) :=
  (reached_store_mirrors sample_keys Store.empty
    [Event.select ⟨0, 2⟩, Event.timer, Event.select ⟨0, 0⟩,
      Event.selection_changed ⟨0, 3⟩ ⟨0, 0⟩, Event.select ⟨0, 3⟩, Event.select ⟨0, 3⟩]
    (by decide)).1

/-- C6: from `win_advanced_init` on an empty store, after `n ≥ 1` calls of
`menu_select` on row 2 the in-memory vibration pattern is `n mod 4`, and so is
the value read back from the store under the vibration-pattern key. -/
theorem select_pattern_n_times (k : Keys) (n : Nat) (_hn : 1 ≤ n) :
    ((menu_select k ⟨0, 2⟩)^[n] (reached k Store.empty [])).s_vibration_pattern
        = (n : Int) % 4 ∧
      load_persistent_storage_int
        ((menu_select k ⟨0, 2⟩)^[n] (reached k Store.empty [])).store
        k.VIBRATION_PATTERN_KEY 0 = (n : Int) % 4 :=
  iterate_select_pattern k 0 n

/-- C6 at the inputs of the end-to-end examples: five selections of row 2 from the
defaults leave the pattern 1 in memory and in the store (0, 1, 2, 3, 0, 1). -/
theorem select_pattern_n_times_witness :
    ((menu_select sample_keys ⟨0, 2⟩)^[5]
        (reached sample_keys Store.empty [])).s_vibration_pattern = 1 ∧
      load_persistent_storage_int
        ((menu_select sample_keys ⟨0, 2⟩)^[5] (reached sample_keys Store.empty [])).store
        sample_keys.VIBRATION_PATTERN_KEY 0 = 1 :=
  select_pattern_n_times sample_keys 5 (by decide)

/-- C7, as stated, fails: with the scroll offset at -32767 (where the 16-bit
counter lands when it wraps) and the 26-byte label of the selected row 4,
`L - 15 - S` is positive, yet the label is drawn from index 0 and not from `S`. -/
theorem marquee_start_negative_offset :
    (strlen "Snooze after Vibration End" : Int) - 15 - (-32767) > 0 ∧
      menu_draw_row id ⟨0, 4⟩
          { boot Store.empty with s_scroll_index := -32767, s_scroll_row_index := 4 }
        = [{ text := "Snooze after Vibration End", start := 0, subtext := "OFF" }] ∧
      (menu_cell_animated_draw
          { boot Store.empty with s_scroll_index := -32767, s_scroll_row_index := 4 }
          "Snooze after Vibration End" "OFF" true).start ≠ -32767 := by
  decide

/-- C7, amended: for a label of length `L` at most 32767 and a scroll offset
`S ≥ 0`, the label of the selected row is drawn from index `S` when
`L - 15 - S > 0` and from index 0 otherwise (so from 0 at `L - 15 - S = 0` and
from `S` at `L - 15 - S = 1`); for `S < 0` it is drawn from index 0; a row that is
not the selected row is drawn from index 0 whatever `S` is; and every draw that
`menu_draw_row` issues is made with "selected" meaning
`cell_index.row = s_scroll_row_index`. -/
theorem marquee_start (tr : String → String) (cell_index : MenuIndex) (s : State)
    (text subtext : String) :
    (0 ≤ s.s_scroll_index → strlen text ≤ 32767 →
      (menu_cell_animated_draw s text subtext true).start
        = if (strlen text : Int) - 15 - s.s_scroll_index > 0 then s.s_scroll_index else 0) ∧
    (0 ≤ s.s_scroll_index → strlen text ≤ 32767 →
      (strlen text : Int) - 15 - s.s_scroll_index = 0 →
      (menu_cell_animated_draw s text subtext true).start = 0) ∧
    (0 ≤ s.s_scroll_index → strlen text ≤ 32767 →
      (strlen text : Int) - 15 - s.s_scroll_index = 1 →
      (menu_cell_animated_draw s text subtext true).start = s.s_scroll_index) ∧
    (s.s_scroll_index < 0 → (menu_cell_animated_draw s text subtext true).start = 0) ∧
    (menu_cell_animated_draw s text subtext false).start = 0 ∧
    (∀ d ∈ menu_draw_row tr cell_index s,
      d = menu_cell_animated_draw s d.text d.subtext
        (decide ((cell_index.row : Int) = s.s_scroll_row_index))) := by
  have key : 0 ≤ s.s_scroll_index → strlen text ≤ 32767 →
      (menu_cell_animated_draw s text subtext true).start
        = if (strlen text : Int) - 15 - s.s_scroll_index > 0 then s.s_scroll_index
          else 0 := by
    intro hS hL
    have hw : wrap16 (strlen text) = strlen text := wrap16_of_mem (by omega) (by omega)
    unfold menu_cell_animated_draw
    rw [hw]
    by_cases h1 : s.s_scroll_index > 0
    · simp only [Bool.true_and, decide_eq_true_eq, h1, if_true]
      split_ifs <;> rfl
    · have h2 : s.s_scroll_index = 0 := by omega
      simp [h2]
  refine ⟨key, ?_, ?_, ?_, ?_, ?_⟩
  · intro hS hL h0
    rw [key hS hL, if_neg (by omega)]
  · intro hS hL h1
    rw [key hS hL, if_pos (by omega)]
  · intro hS
    have h1 : ¬ s.s_scroll_index > 0 := by omega
    simp [menu_cell_animated_draw, h1]
  · simp [menu_cell_animated_draw]
  · intro d hd
    unfold menu_draw_row at hd
    simp only [] at hd
    split_ifs at hd <;>
      simp only [List.mem_singleton, List.not_mem_nil] at hd <;>
      rw [hd, menu_cell_animated_draw_text, menu_cell_animated_draw_subtext]

/-- C7, amended, at a concrete input: the 26-byte label at offset 3 starts at
index 3. -/
theorem marquee_start_witness :
    (menu_cell_animated_draw { boot Store.empty with s_scroll_index := 3 }
      "Snooze after Vibration End" "ON" true).start = 3 :=
  (marquee_start id ⟨0, 4⟩ { boot Store.empty with s_scroll_index := 3 }
    "Snooze after Vibration End" "ON").1 (by decide) (by decide)

/-- C8: whatever the prior state, `menu_selection_changed` with a new row in
`0..4` leaves the scroll offset at 0 and the selected row at the new row, and
changes none of the five settings nor the store; hence selecting row 0, any
number of timer fires, then selecting row 1 ends with the scroll offset at 0. -/
theorem menu_selection_changed_resets (new_index old_index : MenuIndex) (s : State)
    (h : new_index.row ≤ 4) :
    (menu_selection_changed new_index old_index s).s_scroll_index = 0 ∧
    (menu_selection_changed new_index old_index s).s_scroll_row_index = new_index.row ∧
    (menu_selection_changed new_index old_index s).s_longpress_dismiss
      = s.s_longpress_dismiss ∧
    (menu_selection_changed new_index old_index s).s_vibration_pattern
      = s.s_vibration_pattern ∧
    (menu_selection_changed new_index old_index s).s_flip_to_snooze = s.s_flip_to_snooze ∧
    (menu_selection_changed new_index old_index s).s_vibration_duration
      = s.s_vibration_duration ∧
    (menu_selection_changed new_index old_index s).s_auto_snooze = s.s_auto_snooze ∧
    (menu_selection_changed new_index old_index s).store = s.store ∧
    (∀ n : Nat,
      (menu_selection_changed ⟨0, 0⟩ old_index s).s_scroll_index = 0 ∧
      (scroll_timer_callback^[n]
        (menu_selection_changed ⟨0, 0⟩ old_index s)).s_scroll_row_index = 0 ∧
      (menu_selection_changed ⟨0, 1⟩ ⟨0, 0⟩ (scroll_timer_callback^[n]
        (menu_selection_changed ⟨0, 0⟩ old_index s))).s_scroll_index = 0) := by
  refine ⟨rfl, ?_, rfl, rfl, rfl, rfl, rfl, rfl, fun n => ⟨rfl, ?_, rfl⟩⟩
  · exact wrap16_of_mem (by omega) (by omega)
  · rw [iterate_timer_settings]
    rfl

/-- C8 at a concrete input: after three timer fires on row 0, selecting row 1 puts
the scroll offset back to 0 and the selected row to 1. -/
theorem menu_selection_changed_resets_witness :
    (menu_selection_changed ⟨0, 1⟩ ⟨0, 0⟩
        (reached sample_keys Store.empty
          [Event.selection_changed ⟨0, 0⟩ ⟨0, 0⟩, Event.timer, Event.timer,
            Event.timer])).s_scroll_index = 0 ∧
      (menu_selection_changed ⟨0, 1⟩ ⟨0, 0⟩
        (reached sample_keys Store.empty
          [Event.selection_changed ⟨0, 0⟩ ⟨0, 0⟩, Event.timer, Event.timer,
            Event.timer])).s_scroll_row_index = 1 :=
  ⟨(menu_selection_changed_resets ⟨0, 1⟩ ⟨0, 0⟩ _ (by decide)).1,
    (menu_selection_changed_resets ⟨0, 1⟩ ⟨0, 0⟩ _ (by decide)).2.1⟩

/-- C9, as stated, fails: at the scroll offset 32766 (reached after 10922 fires
from 0) one more fire of `scroll_timer_callback` leaves the 16-bit offset at
-32767, not at 32769. -/
theorem scroll_timer_callback_wraps :
    (scroll_timer_callback
        { boot Store.empty with s_scroll_index := 32766 }).s_scroll_index = -32767 ∧
      (scroll_timer_callback
        { boot Store.empty with s_scroll_index := 32766 }).s_scroll_index ≠ 32766 + 3 := by
  decide

/-- C9, amended: in a state whose 16-bit scroll offset is at most 32764, one fire
of `scroll_timer_callback` increases it by exactly 3; in every state the fire
leaves the selected row, the five settings and the store unchanged, requests a
redraw exactly when the selected row index is greater than 0, and registers
exactly one new timer, with a delay of 1000 ms, whose handle it keeps. -/
theorem scroll_timer_callback_effect (s : State) :
    (-32768 ≤ s.s_scroll_index → s.s_scroll_index ≤ 32764 →
      (scroll_timer_callback s).s_scroll_index = s.s_scroll_index + 3) ∧
    (scroll_timer_callback s).s_scroll_row_index = s.s_scroll_row_index ∧
    (scroll_timer_callback s).s_longpress_dismiss = s.s_longpress_dismiss ∧
    (scroll_timer_callback s).s_vibration_pattern = s.s_vibration_pattern ∧
    (scroll_timer_callback s).s_flip_to_snooze = s.s_flip_to_snooze ∧
    (scroll_timer_callback s).s_vibration_duration = s.s_vibration_duration ∧
    (scroll_timer_callback s).s_auto_snooze = s.s_auto_snooze ∧
    (scroll_timer_callback s).store = s.store ∧
    (scroll_timer_callback s).log
      = s.log ++ (if s.s_scroll_row_index > 0 then [Effect.layer_mark_dirty] else [])
          ++ [Effect.app_timer_register 1000 s.next_timer] ∧
    (scroll_timer_callback s).timers = s.timers ++ [(s.next_timer, 1000)] ∧
    (scroll_timer_callback s).s_scroll_timer = s.next_timer := by
  simp only [scroll_timer_callback, app_timer_register, layer_mark_dirty]
  refine ⟨?_, ?_, ?_, ?_, ?_, ?_, ?_, ?_, ?_, ?_, ?_⟩
  · intro h0 h1
    split <;> exact wrap16_of_mem (by omega) (by omega)
  all_goals split <;> simp

/-- C9, amended, at a concrete input: from the offset 6 a fire gives 9. -/
theorem scroll_timer_callback_effect_witness :
    (scroll_timer_callback { boot Store.empty with s_scroll_index := 6 }).s_scroll_index
      = 9 :=
  (scroll_timer_callback_effect { boot Store.empty with s_scroll_index := 6 }).1
    (by decide) (by decide)

/-- C10: for every row index in `0..4` and every state in which that row's value
is in its domain, `menu_draw_row` issues exactly one draw, of the row's fixed
label and of the row's value mapped through its display-string table (both
passed through the localisation lookup). -/
theorem menu_draw_row_label_value (tr : String → String) (sec row : Nat) (s : State)
    (hr : row ≤ 4) (hd : in_domain s row) :
    ∃ d, menu_draw_row tr ⟨sec, row⟩ s = [d] ∧
      d.text = tr (spec_row_label row) ∧
      d.subtext = tr (spec_value_text row (row_value s row)) := by
  interval_cases row
  · refine ⟨_, rfl, ?_, ?_⟩
    · rw [menu_cell_animated_draw_text]; rfl
    · rw [menu_cell_animated_draw_subtext]
      cases h : s.s_longpress_dismiss <;> simp [spec_value_text, row_value, h]
  · refine ⟨_, rfl, ?_, ?_⟩
    · rw [menu_cell_animated_draw_text]; rfl
    · rw [menu_cell_animated_draw_subtext]
      cases h : s.s_flip_to_snooze <;> simp [spec_value_text, row_value, h]
  · simp only [in_domain, row_value, domain_size] at hd
    simp at hd
    have hv : s.s_vibration_pattern = 0 ∨ s.s_vibration_pattern = 1 ∨
        s.s_vibration_pattern = 2 ∨ s.s_vibration_pattern = 3 := by omega
    rcases hv with hv | hv | hv | hv <;>
      simp [menu_draw_row, hv, menu_cell_animated_draw_text,
        menu_cell_animated_draw_subtext, spec_row_label, spec_value_text, row_value]
  · simp only [in_domain, row_value, domain_size] at hd
    simp at hd
    have hv : s.s_vibration_duration = 0 ∨ s.s_vibration_duration = 1 ∨
        s.s_vibration_duration = 2 ∨ s.s_vibration_duration = 3 := by omega
    rcases hv with hv | hv | hv | hv <;>
      simp [menu_draw_row, hv, menu_cell_animated_draw_text,
        menu_cell_animated_draw_subtext, spec_row_label, spec_value_text, row_value]
  · refine ⟨_, rfl, ?_, ?_⟩
    · rw [menu_cell_animated_draw_text]; rfl
    · rw [menu_cell_animated_draw_subtext]
      cases h : s.s_auto_snooze <;> simp [spec_value_text, row_value, h]

/-- C10 at a concrete input: with the defaults loaded, row 3 is drawn as
"Vibration Duration" with "2 minutes". -/
theorem menu_draw_row_label_value_witness :
    ∃ d, menu_draw_row id ⟨0, 3⟩ (reached sample_keys Store.empty []) = [d] ∧
      d.text = "Vibration Duration" ∧ d.subtext = "2 minutes" :=
  menu_draw_row_label_value id 0 3 (reached sample_keys Store.empty [])
    (by decide) (by decide)

/-- C11, as stated, fails: after `win_advanced_init` and 10923 consecutive calls of
`scroll_timer_callback` with no selection change, the 16-bit `s_scroll_index`
holds -32767, a negative value. -/
theorem reached_negative_scroll_index :
    (reached sample_keys Store.empty
        (List.replicate 10923 Event.timer)).s_scroll_index = -32767 ∧
      ¬ 0 ≤ (reached sample_keys Store.empty
        (List.replicate 10923 Event.timer)).s_scroll_index := by
  have h : (reached sample_keys Store.empty
      (List.replicate 10923 Event.timer)).s_scroll_index = -32767 := by
    rw [reached_scroll_index, ticks_since_reset, foldl_count_tick_replicate]
    decide
  rw [h]
  exact ⟨rfl, by decide⟩

/-- C11, amended: in every state reached from `win_advanced_init` through any
finite sequence of `menu_select`, `menu_selection_changed` and
`scroll_timer_callback` calls, `s_scroll_index` is a signed 16-bit value, and
as long as at most 10922 timer fires have occurred since the latest selection
change (or since initialisation) it is three times the number of those fires,
hence non-negative. -/
theorem reached_scroll_index_nonneg (k : Keys) (st : Store) (events : List Event) :
    (-32768 ≤ (reached k st events).s_scroll_index ∧
      (reached k st events).s_scroll_index ≤ 32767) ∧
    (ticks_since_reset events ≤ 10922 →
      (reached k st events).s_scroll_index = 3 * (ticks_since_reset events : Int) ∧
      0 ≤ (reached k st events).s_scroll_index) := by
  rw [reached_scroll_index]
  refine ⟨range_wrap16 _, fun h => ?_⟩
  have hw : wrap16 (3 * (ticks_since_reset events : Nat)) = 3 * (ticks_since_reset events : Int) :=
    wrap16_of_mem (by omega) (by omega)
  rw [hw]
  exact ⟨rfl, by omega⟩

/-- C11, amended, at a concrete input: two fires, a selection change, a selection
and three more fires leave the scroll offset at 9. -/
theorem reached_scroll_index_nonneg_witness :
    (reached sample_keys Store.empty
      [Event.timer, Event.timer, Event.selection_changed ⟨0, 1⟩ ⟨0, 0⟩,
        Event.timer, Event.select ⟨0, 1⟩, Event.timer, Event.timer]).s_scroll_index = 9 :=
  ((reached_scroll_index_nonneg sample_keys Store.empty
    [Event.timer, Event.timer, Event.selection_changed ⟨0, 1⟩ ⟨0, 0⟩,
      Event.timer, Event.select ⟨0, 1⟩, Event.timer, Event.timer]).2 (by decide)).1

/-- C12: with pending timers as explicit state (`app_timer_register` adds a pending
fire, a fire consumes it, `app_timer_reschedule` changes only the delay of the
handle it is given), every state reached after `win_advanced_init` through
timer fires, `menu_selection_changed` and `menu_select` has exactly one pending
timer fire, whose handle is `s_scroll_timer`; and each single step keeps it so. -/
theorem reached_one_pending (k : Keys) (st : Store) (events : List TimedEvent) :
    one_pending (run_timed k events (win_advanced_init k (boot st))) ∧
    (run_timed k events (win_advanced_init k (boot st))).timers.length = 1 ∧
    (run_timed k events (win_advanced_init k (boot st))).timers.map Prod.fst
      = [(run_timed k events (win_advanced_init k (boot st))).s_scroll_timer] ∧
    (∀ (e : TimedEvent) (s : State), one_pending s → one_pending (step_timed k s e)) := by
  have h : one_pending (run_timed k events (win_advanced_init k (boot st))) :=
    run_timed_one_pending k events _ ⟨500, rfl⟩
  obtain ⟨d, hd⟩ := h
  refine ⟨⟨d, hd⟩, ?_, ?_, fun e s hs => step_timed_one_pending k e s hs⟩
  · rw [hd]; rfl
  · rw [hd]; rfl

/-- C12 at a concrete input: right after `win_advanced_init` one fire is pending
(handle 1), and it is still exactly one after that timer fires. -/
theorem reached_one_pending_witness :
    one_pending (step_timed sample_keys (win_advanced_init sample_keys (boot Store.empty))
      (TimedEvent.fire 1)) :=
  (reached_one_pending sample_keys Store.empty []).2.2.2 (TimedEvent.fire 1)
    (win_advanced_init sample_keys (boot Store.empty)) ⟨500, rfl⟩

/-- C13: for every label, scroll offset and value of the animate flag, the start
index `k` at which `menu_cell_animated_draw` renders the label satisfies
`0 ≤ k < L` or `k = 0`, and whenever `k > 0` the rendered tail has at least 15
characters (`L - k ≥ 15`). -/
theorem marquee_start_in_label (s : State) (text subtext : String) (animate : Bool) :
    ((0 ≤ (menu_cell_animated_draw s text subtext animate).start ∧
        (menu_cell_animated_draw s text subtext animate).start < strlen text) ∨
      (menu_cell_animated_draw s text subtext animate).start = 0) ∧
    ((menu_cell_animated_draw s text subtext animate).start > 0 →
      (strlen text : Int) - (menu_cell_animated_draw s text subtext animate).start ≥ 15) := by
  rw [menu_cell_animated_draw_start]
  have hw := wrap16_le_self (strlen text)
  split_ifs with h
  · obtain ⟨_, h1, h2⟩ := h
    exact ⟨Or.inl ⟨by omega, by omega⟩, fun _ => by omega⟩
  · exact ⟨Or.inr rfl, fun h0 => absurd h0 (by decide)⟩

/-- C13 at a concrete input: the 26-byte label at offset 9 starts at index 9 and
leaves a tail of 17 characters. -/
theorem marquee_start_in_label_witness :
    (strlen "Snooze after Vibration End" : Int)
      - (menu_cell_animated_draw { boot Store.empty with s_scroll_index := 9 }
          "Snooze after Vibration End" "ON" true).start ≥ 15 :=
  (marquee_start_in_label { boot Store.empty with s_scroll_index := 9 }
    "Snooze after Vibration End" "ON" true).2 (by decide)

/-- C14, as stated, fails: selecting row 2 logs the storage write, then the
idle-timeout notification `refresh_timeout`, then the redraw request
`layer_mark_dirty`; the redraw request does not come before the notification. -/
theorem menu_select_notifies_before_redraw :
    (menu_select sample_keys ⟨0, 2⟩ (boot Store.empty)).log
        = [Effect.persist_write_int 4 1, Effect.refresh_timeout, Effect.layer_mark_dirty] ∧
      (menu_select sample_keys ⟨0, 2⟩ (boot Store.empty)).log
        ≠ [Effect.persist_write_int 4 1, Effect.layer_mark_dirty, Effect.refresh_timeout] := by
  decide

/-- C14, amended: for every state and every row index in `0..4`, `menu_select`
emits exactly three effects, in the order: the storage write of the row's new
value under the row's key, then the idle-timeout notification, then the redraw
request. -/
theorem menu_select_effect_order (k : Keys) (sec row : Nat) (s : State) (hr : row ≤ 4) :
    (menu_select k ⟨sec, row⟩ s).log
      = s.log ++ [row_write k row (menu_select k ⟨sec, row⟩ s), Effect.refresh_timeout,
          Effect.layer_mark_dirty] := by
  interval_cases row
  · rw [menu_select_row0]; rfl
  · rw [menu_select_row1]; rfl
  · rw [menu_select_row2]; rfl
  · rw [menu_select_row3]; rfl
  · rw [menu_select_row4]; rfl

/-- C14, amended, at a concrete input: selecting row 0 from the defaults writes
`true` under the long-press key, then notifies, then requests the redraw. -/
theorem menu_select_effect_order_witness :
    (menu_select sample_keys ⟨0, 0⟩ (boot Store.empty)).log
      = [Effect.persist_write_bool 2 true, Effect.refresh_timeout,
          Effect.layer_mark_dirty] :=
  menu_select_effect_order sample_keys 0 0 (boot Store.empty) (by decide)

/-- C15: for every state and every row index `r` in `0..4`, `menu_select` on `r`
leaves the values of the other four rows, every store key other than the key of
row `r` (with pairwise different keys: the keys of the other four rows), the
scroll offset and the selected row unchanged, so that `menu_draw_row` gives the
same output for every other row; for a row index outside `0..4` no value
changes and nothing is written to the store. -/
theorem menu_select_frame (k : Keys) (tr : String → String) (sec r : Nat) (s : State) :
    (r ≤ 4 →
      (∀ r2, r2 ≠ r → row_value (menu_select k ⟨sec, r⟩ s) r2 = row_value s r2) ∧
      (∀ key, key ≠ row_key k r → (menu_select k ⟨sec, r⟩ s).store key = s.store key) ∧
      (k.distinct → ∀ r2, r2 ≤ 4 → r2 ≠ r →
        (menu_select k ⟨sec, r⟩ s).store (row_key k r2) = s.store (row_key k r2)) ∧
      (menu_select k ⟨sec, r⟩ s).s_scroll_index = s.s_scroll_index ∧
      (menu_select k ⟨sec, r⟩ s).s_scroll_row_index = s.s_scroll_row_index ∧
      (∀ cell_index : MenuIndex, cell_index.row ≠ r →
        menu_draw_row tr cell_index (menu_select k ⟨sec, r⟩ s)
          = menu_draw_row tr cell_index s)) ∧
    (4 < r →
      (menu_select k ⟨sec, r⟩ s).s_longpress_dismiss = s.s_longpress_dismiss ∧
      (menu_select k ⟨sec, r⟩ s).s_vibration_pattern = s.s_vibration_pattern ∧
      (menu_select k ⟨sec, r⟩ s).s_flip_to_snooze = s.s_flip_to_snooze ∧
      (menu_select k ⟨sec, r⟩ s).s_vibration_duration = s.s_vibration_duration ∧
      (menu_select k ⟨sec, r⟩ s).s_auto_snooze = s.s_auto_snooze ∧
      (menu_select k ⟨sec, r⟩ s).store = s.store ∧
      (menu_select k ⟨sec, r⟩ s).log
        = s.log ++ [Effect.refresh_timeout, Effect.layer_mark_dirty]) := by
  constructor
  · intro hr
    have hstore : ∀ key, key ≠ row_key k r →
        (menu_select k ⟨sec, r⟩ s).store key = s.store key := by
      intro key hkey
      interval_cases r
      · rw [menu_select_row0]; simp only [Store.write]; exact if_neg hkey
      · rw [menu_select_row1]; simp only [Store.write]; exact if_neg hkey
      · rw [menu_select_row2]; simp only [Store.write]; exact if_neg hkey
      · rw [menu_select_row3]; simp only [Store.write]; exact if_neg hkey
      · rw [menu_select_row4]; simp only [Store.write]; exact if_neg hkey
    have hval : ∀ r2, r2 ≠ r →
        row_value (menu_select k ⟨sec, r⟩ s) r2 = row_value s r2 := by
      intro r2 hne
      interval_cases r
      · rw [menu_select_row0]; simp only [row_value]; rw [if_neg hne, if_neg hne]
      · rw [menu_select_row1]; simp only [row_value]; split_ifs <;> rfl
      · rw [menu_select_row2]; simp only [row_value]; split_ifs <;> rfl
      · rw [menu_select_row3]; simp only [row_value]; split_ifs <;> rfl
      · rw [menu_select_row4]; simp only [row_value]; split_ifs <;> rfl
    have hidx : (menu_select k ⟨sec, r⟩ s).s_scroll_index = s.s_scroll_index ∧
        (menu_select k ⟨sec, r⟩ s).s_scroll_row_index = s.s_scroll_row_index := by
      interval_cases r
      · rw [menu_select_row0]; exact ⟨rfl, rfl⟩
      · rw [menu_select_row1]; exact ⟨rfl, rfl⟩
      · rw [menu_select_row2]; exact ⟨rfl, rfl⟩
      · rw [menu_select_row3]; exact ⟨rfl, rfl⟩
      · rw [menu_select_row4]; exact ⟨rfl, rfl⟩
    refine ⟨hval, hstore, ?_, hidx.1, hidx.2, ?_⟩
    · intro hk r2 hr2 hne
      exact hstore _ (row_key_injective k hk r r2 hr hr2 hne)
    · intro cell_index hne
      have hb : ∀ b c : Bool, (if b = true then (1 : Int) else 0) = (if c = true then 1 else 0)
          → b = c := by
        intro b c; cases b <;> cases c <;> simp
      apply menu_draw_row_congr _ _ _ _ _ _ _ _ _ hidx.1 hidx.2
      · intro h
        have := hval 0 (by omega)
        simp only [row_value] at this
        exact hb _ _ (by simpa using this)
      · intro h
        have := hval 1 (by omega)
        simp only [row_value] at this
        exact hb _ _ (by simpa using this)
      · intro h
        have := hval 2 (by omega)
        simpa [row_value] using this
      · intro h
        have := hval 3 (by omega)
        simpa [row_value] using this
      · intro h
        have := hval 4 (by omega)
        simp only [row_value] at this
        exact hb _ _ (by simpa using this)
  · intro hr
    rw [menu_select_other k sec r s (by omega) (by omega) (by omega) (by omega) (by omega)]
    exact ⟨rfl, rfl, rfl, rfl, rfl, rfl, rfl⟩

/-- C15 at a concrete input: selecting row 2 draws row 3 as before. -/
theorem menu_select_frame_witness :
    menu_draw_row id ⟨0, 3⟩ (menu_select sample_keys ⟨0, 2⟩ (reached sample_keys Store.empty []))
      = menu_draw_row id ⟨0, 3⟩ (reached sample_keys Store.empty []) :=
  ((menu_select_frame sample_keys id 0 2 (reached sample_keys Store.empty [])).1
    (by decide)).2.2.2.2.2 ⟨0, 3⟩ (by decide)

/-- C16: with the built-in untranslated labels (13, 15, 18, 18 and 26 bytes for
rows 0 to 4) and a scroll offset that is a non-negative multiple of 3, a draw
issued by `menu_draw_row` starts at a non-zero index exactly when the row is
row 4, row 4 is the selected row and the offset is 3, 6 or 9, and it then starts
at the offset; at offset 12 and beyond, and for rows 0 to 3, it starts at 0. -/
theorem builtin_labels_marquee (sec row m : Nat) (s : State)
    (hS : s.s_scroll_index = 3 * (m : Int)) :
    (strlen (spec_row_label 0) = 13 ∧ strlen (spec_row_label 1) = 15 ∧
      strlen (spec_row_label 2) = 18 ∧ strlen (spec_row_label 3) = 18 ∧
      strlen (spec_row_label 4) = 26) ∧
    (∀ d ∈ menu_draw_row id ⟨sec, row⟩ s,
      d.text = spec_row_label row ∧
      (d.start ≠ 0 ↔ row = 4 ∧ s.s_scroll_row_index = 4 ∧ (m = 1 ∨ m = 2 ∨ m = 3)) ∧
      (d.start ≠ 0 → d.start = s.s_scroll_index) ∧
      (row ≤ 3 → d.start = 0) ∧
      (4 ≤ m → d.start = 0)) := by
  refine ⟨strlen_spec_row_label, ?_⟩
  intro d hd
  obtain ⟨hr, hd⟩ := mem_menu_draw_row id ⟨sec, row⟩ s d hd
  obtain ⟨l0, l1, l2, l3, l4⟩ := strlen_spec_row_label
  have ht : d.text = spec_row_label row := by
    rw [hd, menu_cell_animated_draw_text]; rfl
  have hs : d.start = if (row : Int) = s.s_scroll_row_index ∧ s.s_scroll_index > 0 ∧
      wrap16 (strlen (spec_row_label row)) - 15 - s.s_scroll_index > 0
      then s.s_scroll_index else 0 := by
    rw [hd, menu_cell_animated_draw_start]
    simp
  refine ⟨ht, ?_⟩
  have w13 : wrap16 ((13 : Nat) : Int) = 13 := by decide
  have w15 : wrap16 ((15 : Nat) : Int) = 15 := by decide
  have w18 : wrap16 ((18 : Nat) : Int) = 18 := by decide
  have w26 : wrap16 ((26 : Nat) : Int) = 26 := by decide
  simp only [] at hr
  clear hd ht
  interval_cases row
  · rw [l0, w13] at hs
    clear l0 l1 l2 l3 l4 w13 w15 w18 w26
    split_ifs at hs <;> omega
  · rw [l1, w15] at hs
    clear l0 l1 l2 l3 l4 w13 w15 w18 w26
    split_ifs at hs <;> omega
  · rw [l2, w18] at hs
    clear l0 l1 l2 l3 l4 w13 w15 w18 w26
    split_ifs at hs <;> omega
  · rw [l3, w18] at hs
    clear l0 l1 l2 l3 l4 w13 w15 w18 w26
    split_ifs at hs <;> omega
  · rw [l4, w26] at hs
    clear l0 l1 l2 l3 l4 w13 w15 w18 w26
    split_ifs at hs <;> omega

/-- C16 at a concrete input: with row 4 selected at offset 6, the draw of row 4
starts at index 6, a non-zero index at one of the offsets 3, 6, 9. -/
theorem builtin_labels_marquee_witness :
    ({ text := "Snooze after Vibration End", start := 6, subtext := "OFF" } : DrawCall)
        ∈ menu_draw_row id ⟨0, 4⟩
          { boot Store.empty with s_scroll_index := 6, s_scroll_row_index := 4 } ∧
      ((6 : Int) ≠ 0 ↔ 4 = 4 ∧ (4 : Int) = 4 ∧ (2 = 1 ∨ 2 = 2 ∨ 2 = 3)) :=
  ⟨by decide,
    ((builtin_labels_marquee 0 4 2
      { boot Store.empty with s_scroll_index := 6, s_scroll_row_index := 4 } rfl).2
      { text := "Snooze after Vibration End", start := 6, subtext := "OFF" }
      (by decide)).2.1⟩

end WinAdvanced
